import Mathlib

/-!
# UDP service configuration: `services/udp/config.go`

A shallow embedding of the `Config` record of the UDP listener, of the table of
default constants and of the method `(*Config).WithDefaults`, followed by the
properties of the defaulting contract.

Go's `int` and `toml.Duration` (an `int64` count of nanoseconds) are embedded
as `Int`: the method only compares these fields with `0` and assigns
constants, so no arithmetic can overflow.
-/

namespace time

/-- The Go standard library constant `time.Second`: one second counted in
nanoseconds. -/
def Second : Int := 1000000000

end time

namespace toml

/-- Modelled from the spec: the type `toml.Duration` is declared in the `toml`
package, which is not among the sources. The spec calls the field a duration
whose zero value is the zero duration; the embedding is the underlying signed
count of nanoseconds of `time.Duration`. -/
abbrev Duration := Int

end toml

namespace udp

/-- The constant `DefaultDatabase` is the default database for UDP traffic. -/
def DefaultDatabase : String := "udp"

/-- The constant `DefaultBatchSize` is the default UDP batch size. -/
def DefaultBatchSize : Int := 5000

/-- The constant `DefaultBatchPending` is the default number of pending UDP batches. -/
def DefaultBatchPending : Int := 10

/-- The constant `DefaultBatchTimeout` is the default UDP batch timeout. -/
def DefaultBatchTimeout : Int := time.Second

/-- The constant `DefaultPrecision` is the default time precision used for UDP services. -/
def DefaultPrecision : String := "n"

/-- The constant `DefaultReadBuffer` is the default buffer size for the UDP listener;
`0` means to use the default of the operating system. -/
def DefaultReadBuffer : Int := 0

/-- The constant `DefaultUDPPayloadSize` is the default size of the incoming UDP packet. -/
def DefaultUDPPayloadSize : Int := 65536

/-- The record `Config` holds the configuration settings of the UDP listener, field by
field as in the Go struct. -/
structure Config where
  Enabled : Bool
  BindAddress : String
  Database : String
  RetentionPolicy : String
  BatchSize : Int
  BatchPending : Int
  ReadBuffer : Int
  BatchTimeout : toml.Duration
  Precision : String
  UDPPayloadSize : Int
  deriving DecidableEq, Repr

/-- The zero value of `Config`, what Go's `Config{}` denotes. -/
def Config.zero : Config :=
  { Enabled := false, BindAddress := "", Database := "", RetentionPolicy := "",
    BatchSize := 0, BatchPending := 0, ReadBuffer := 0, BatchTimeout := 0,
    Precision := "", UDPPayloadSize := 0 }

/-- The body of `WithDefaults` on the value `d` copied from the receiver: the
seven guarded assignments of the source, in the source's order, followed by the
value that is returned. -/
def Config.WithDefaults (c : Config) : Config :=
  let d := c
  let d := if d.Database = "" then { d with Database := DefaultDatabase } else d
  let d := if d.BatchSize = 0 then { d with BatchSize := DefaultBatchSize } else d
  let d := if d.BatchPending = 0 then { d with BatchPending := DefaultBatchPending } else d
  let d := if d.BatchTimeout = 0 then { d with BatchTimeout := DefaultBatchTimeout } else d
  let d := if d.Precision = "" then { d with Precision := DefaultPrecision } else d
  let d := if d.ReadBuffer = 0 then { d with ReadBuffer := DefaultReadBuffer } else d
  let d := if d.UDPPayloadSize = 0 then { d with UDPPayloadSize := DefaultUDPPayloadSize } else d
  d

/-- The store of `Config` values that pointers refer to: the address of a
value is its position in the list. -/
abbrev Heap := List Config

/-- A Go pointer `*Config`: `none` is `nil`, `some a` is the address `a`. -/
abbrev Ptr := Option Nat

/-- The run-time failures of a pointer dereference. -/
inductive RuntimeError where
  | nilDereference
  | invalidAddress
  deriving DecidableEq, Repr

/-- The method `func (c *Config) WithDefaults() *Config` with its receiver:
`d := *c` reads the receiver (a run-time failure when it is `nil`), the body
fills in the defaults on the copy `d`, and `return &d` places `d` in a fresh
cell of the store and returns its address. -/
def Config.WithDefaultsRef (h : Heap) (c : Ptr) : Except RuntimeError (Heap × Ptr) :=
  match c with
  | none => Except.error RuntimeError.nilDereference
  | some a =>
    match h[a]? with
    | none => Except.error RuntimeError.invalidAddress
    | some v => Except.ok (h ++ [v.WithDefaults], some h.length)

/-- A configuration in which every field of the defaulting table is set, with
a negative batch size and a precision that is not one of the recognised
units. -/
def Config.explicitSample : Config :=
  { Enabled := true, BindAddress := ":8089", Database := "metrics", RetentionPolicy := "week",
    BatchSize := -5, BatchPending := 3, ReadBuffer := 1024, BatchTimeout := 250,
    Precision := "fortnight", UDPPayloadSize := 1500 }

/-- A configuration with negative sizes, an unrecognised precision and a bind
address that is no address. -/
def Config.malformedSample : Config :=
  { Enabled := true, BindAddress := "not an address", Database := "", RetentionPolicy := "",
    BatchSize := -1, BatchPending := -7, ReadBuffer := -4096, BatchTimeout := -3,
    Precision := "parsec", UDPPayloadSize := -65536 }

/-! ## Closed form of `WithDefaults` -/

/-- The seven guarded assignments act on seven different fields, so the
returned value is given field by field by one conditional each. -/
theorem WithDefaults_eq (c : Config) :
    c.WithDefaults =
      { Enabled := c.Enabled
        BindAddress := c.BindAddress
        Database := if c.Database = "" then DefaultDatabase else c.Database
        RetentionPolicy := c.RetentionPolicy
        BatchSize := if c.BatchSize = 0 then DefaultBatchSize else c.BatchSize
        BatchPending := if c.BatchPending = 0 then DefaultBatchPending else c.BatchPending
        ReadBuffer := if c.ReadBuffer = 0 then DefaultReadBuffer else c.ReadBuffer
        BatchTimeout := if c.BatchTimeout = 0 then DefaultBatchTimeout else c.BatchTimeout
        Precision := if c.Precision = "" then DefaultPrecision else c.Precision
        UDPPayloadSize :=
          if c.UDPPayloadSize = 0 then DefaultUDPPayloadSize else c.UDPPayloadSize } := by
  obtain ⟨en, ba, db, rp, bs, bp, rb, bt, pr, ps⟩ := c
  unfold Config.WithDefaults
  by_cases h1 : db = "" <;> by_cases h2 : bs = 0 <;> by_cases h3 : bp = 0 <;>
    by_cases h4 : bt = 0 <;> by_cases h5 : pr = "" <;> by_cases h6 : rb = 0 <;>
    by_cases h7 : ps = 0 <;> simp [h1, h2, h3, h4, h5, h6, h7]

/-! ## The defaulting contract -/

/-- C1: for every configuration, each field of the defaulting table that holds
its zero value is resolved to the documented default: Database "" to "udp",
BatchSize 0 to 5000, BatchPending 0 to 10, BatchTimeout 0 to one second
(1000000000 ns), Precision "" to "n", ReadBuffer 0 to 0 and UDPPayloadSize 0
to 65536. -/
theorem WithDefaults_zero_field_gets_default (c : Config) :
    (c.Database = "" → c.WithDefaults.Database = "udp") ∧
    (c.BatchSize = 0 → c.WithDefaults.BatchSize = 5000) ∧
    (c.BatchPending = 0 → c.WithDefaults.BatchPending = 10) ∧
    (c.BatchTimeout = 0 → c.WithDefaults.BatchTimeout = 1000000000) ∧
    (c.Precision = "" → c.WithDefaults.Precision = "n") ∧
    (c.ReadBuffer = 0 → c.WithDefaults.ReadBuffer = 0) ∧
    (c.UDPPayloadSize = 0 → c.WithDefaults.UDPPayloadSize = 65536) := by
  rw [WithDefaults_eq]
  refine ⟨?_, ?_, ?_, ?_, ?_, ?_, ?_⟩ <;> intro h <;>
    simp [h, DefaultDatabase, DefaultBatchSize, DefaultBatchPending, DefaultBatchTimeout,
      DefaultPrecision, DefaultReadBuffer, DefaultUDPPayloadSize, time.Second]

/-- C1 at the all-zero configuration: all seven premises hold there and all
seven defaults are produced. -/
theorem WithDefaults_zero_field_gets_default_witness :
    (Config.zero.Database = "" ∧ Config.zero.BatchSize = 0 ∧ Config.zero.BatchPending = 0 ∧
      Config.zero.BatchTimeout = 0 ∧ Config.zero.Precision = "" ∧ Config.zero.ReadBuffer = 0 ∧
      Config.zero.UDPPayloadSize = 0) ∧
    (Config.zero.WithDefaults.Database = "udp" ∧ Config.zero.WithDefaults.BatchSize = 5000 ∧
      Config.zero.WithDefaults.BatchPending = 10 ∧
      Config.zero.WithDefaults.BatchTimeout = 1000000000 ∧
      Config.zero.WithDefaults.Precision = "n" ∧ Config.zero.WithDefaults.ReadBuffer = 0 ∧
      Config.zero.WithDefaults.UDPPayloadSize = 65536) :=
  have h := WithDefaults_zero_field_gets_default Config.zero
  ⟨⟨rfl, rfl, rfl, rfl, rfl, rfl, rfl⟩,
    h.1 rfl, h.2.1 rfl, h.2.2.1 rfl, h.2.2.2.1 rfl, h.2.2.2.2.1 rfl, h.2.2.2.2.2.1 rfl,
    h.2.2.2.2.2.2 rfl⟩

/-- C2: for every configuration, each field of the defaulting table that is
non-zero keeps exactly its value; in particular a negative BatchSize, and a
non-empty Precision outside n, u, ms, s, m, h, are passed through as given. -/
theorem WithDefaults_nonzero_field_kept (c : Config) :
    (c.Database ≠ "" → c.WithDefaults.Database = c.Database) ∧
    (c.BatchSize ≠ 0 → c.WithDefaults.BatchSize = c.BatchSize) ∧
    (c.BatchPending ≠ 0 → c.WithDefaults.BatchPending = c.BatchPending) ∧
    (c.BatchTimeout ≠ 0 → c.WithDefaults.BatchTimeout = c.BatchTimeout) ∧
    (c.Precision ≠ "" → c.WithDefaults.Precision = c.Precision) ∧
    (c.ReadBuffer ≠ 0 → c.WithDefaults.ReadBuffer = c.ReadBuffer) ∧
    (c.UDPPayloadSize ≠ 0 → c.WithDefaults.UDPPayloadSize = c.UDPPayloadSize) ∧
    (c.BatchSize < 0 → c.WithDefaults.BatchSize = c.BatchSize) ∧
    (c.Precision ≠ "" → c.Precision ∉ ["n", "u", "ms", "s", "m", "h"] →
      c.WithDefaults.Precision = c.Precision) := by
  rw [WithDefaults_eq]
  refine ⟨?_, ?_, ?_, ?_, ?_, ?_, ?_, ?_, ?_⟩
  · intro h; simp [h]
  · intro h; simp [h]
  · intro h; simp [h]
  · intro h; simp [h]
  · intro h; simp [h]
  · intro h; simp [h]
  · intro h; simp [h]
  · intro h
    have h0 : c.BatchSize ≠ 0 := by omega
    simp [h0]
  · intro h _; simp [h]

/-- C2 at a configuration with every defaulted field set, a negative
BatchSize and an unrecognised Precision: every premise holds and every field
comes back as given. -/
theorem WithDefaults_nonzero_field_kept_witness :
    (Config.explicitSample.Database ≠ "" ∧ Config.explicitSample.BatchSize ≠ 0 ∧
      Config.explicitSample.BatchPending ≠ 0 ∧ Config.explicitSample.BatchTimeout ≠ 0 ∧
      Config.explicitSample.Precision ≠ "" ∧ Config.explicitSample.ReadBuffer ≠ 0 ∧
      Config.explicitSample.UDPPayloadSize ≠ 0 ∧ Config.explicitSample.BatchSize < 0 ∧
      Config.explicitSample.Precision ∉ ["n", "u", "ms", "s", "m", "h"]) ∧
    (Config.explicitSample.WithDefaults.Database = "metrics" ∧
      Config.explicitSample.WithDefaults.BatchSize = -5 ∧
      Config.explicitSample.WithDefaults.BatchPending = 3 ∧
      Config.explicitSample.WithDefaults.BatchTimeout = 250 ∧
      Config.explicitSample.WithDefaults.Precision = "fortnight" ∧
      Config.explicitSample.WithDefaults.ReadBuffer = 1024 ∧
      Config.explicitSample.WithDefaults.UDPPayloadSize = 1500 ∧
      Config.explicitSample.WithDefaults.BatchSize = -5 ∧
      Config.explicitSample.WithDefaults.Precision = "fortnight") :=
  have h := WithDefaults_nonzero_field_kept Config.explicitSample
  ⟨⟨by decide, by decide, by decide, by decide, by decide, by decide, by decide, by decide,
      by decide⟩,
    h.1 (by decide), h.2.1 (by decide), h.2.2.1 (by decide), h.2.2.2.1 (by decide),
    h.2.2.2.2.1 (by decide), h.2.2.2.2.2.1 (by decide), h.2.2.2.2.2.2.1 (by decide),
    h.2.2.2.2.2.2.2.1 (by decide), h.2.2.2.2.2.2.2.2 (by decide) (by decide)⟩

/-- C3: for every configuration, whatever its fields hold, Enabled and
BindAddress are returned unchanged; in particular Enabled = false and
BindAddress = "" stay false and "". -/
theorem WithDefaults_Enabled_BindAddress_unchanged :
    (∀ c : Config, c.WithDefaults.Enabled = c.Enabled ∧
      c.WithDefaults.BindAddress = c.BindAddress) ∧
    (∀ c : Config, c.Enabled = false ∧ c.BindAddress = "" →
      c.WithDefaults.Enabled = false ∧ c.WithDefaults.BindAddress = "") := by
  refine ⟨fun c => ?_, fun c h => ?_⟩
  · rw [WithDefaults_eq]; exact ⟨rfl, rfl⟩
  · rw [WithDefaults_eq]; exact ⟨h.1, h.2⟩

/-- C3 at the all-zero configuration, where Enabled is false and BindAddress
is empty. -/
theorem WithDefaults_Enabled_BindAddress_unchanged_witness :
    (Config.zero.Enabled = false ∧ Config.zero.BindAddress = "") ∧
    (Config.zero.WithDefaults.Enabled = false ∧ Config.zero.WithDefaults.BindAddress = "") :=
  ⟨⟨rfl, rfl⟩, WithDefaults_Enabled_BindAddress_unchanged.2 Config.zero ⟨rfl, rfl⟩⟩

/-- C4: resolving is idempotent: for every configuration, resolving the
resolved configuration returns a configuration equal to it in every field. -/
theorem WithDefaults_idempotent (c : Config) :
    c.WithDefaults.WithDefaults = c.WithDefaults := by
  rw [WithDefaults_eq c.WithDefaults, WithDefaults_eq c]
  by_cases h1 : c.Database = "" <;> by_cases h2 : c.BatchSize = 0 <;>
    by_cases h3 : c.BatchPending = 0 <;> by_cases h4 : c.BatchTimeout = 0 <;>
    by_cases h5 : c.Precision = "" <;> by_cases h6 : c.ReadBuffer = 0 <;>
    by_cases h7 : c.UDPPayloadSize = 0 <;>
    simp [h1, h2, h3, h4, h5, h6, h7, DefaultDatabase, DefaultBatchSize, DefaultBatchPending,
      DefaultBatchTimeout, DefaultPrecision, DefaultReadBuffer, DefaultUDPPayloadSize,
      time.Second]

/-- C5: the call never mutates its receiver: for every store and every
configuration kept behind the receiver pointer, the call returns a pointer to a
cell that did not exist before and differs from the receiver, the receiver cell
and every other cell of the store hold what they held before the call, and the
defaults are found only in the returned cell. -/
theorem WithDefaultsRef_receiver_unchanged (h : Heap) (a : Nat) (c : Config)
    (hc : h[a]? = some c) :
    ∃ (h' : Heap) (r : Nat),
      Config.WithDefaultsRef h (some a) = Except.ok (h', some r) ∧
      r ≠ a ∧ h[r]? = none ∧
      h'[a]? = some c ∧
      (∀ (b : Nat) (v : Config), h[b]? = some v → h'[b]? = some v) ∧
      h'[r]? = some c.WithDefaults := by
  have ha : a < h.length := by
    by_contra hlt
    rw [List.getElem?_eq_none (Nat.le_of_not_lt hlt)] at hc
    cases hc
  have keep : ∀ (b : Nat) (v : Config), h[b]? = some v →
      (h ++ [c.WithDefaults])[b]? = some v := by
    intro b v hb
    have hlt : b < h.length := by
      by_contra hlt
      rw [List.getElem?_eq_none (Nat.le_of_not_lt hlt)] at hb
      cases hb
    rw [List.getElem?_append_left hlt]
    exact hb
  refine ⟨h ++ [c.WithDefaults], h.length, ?_, ?_, ?_, keep a c hc, keep, ?_⟩
  · simp [Config.WithDefaultsRef, hc]
  · omega
  · exact List.getElem?_eq_none (Nat.le_refl _)
  · simp

/-- C5 on a store of one cell holding the all-zero configuration: the cell
still holds the all-zero configuration after the call and the defaults sit in
the new cell at address 1. -/
theorem WithDefaultsRef_receiver_unchanged_witness :
    ([Config.zero] : Heap)[0]? = some Config.zero ∧
    ∃ (h' : Heap) (r : Nat),
      Config.WithDefaultsRef [Config.zero] (some 0) = Except.ok (h', some r) ∧
      r ≠ 0 ∧ ([Config.zero] : Heap)[r]? = none ∧
      h'[0]? = some Config.zero ∧
      (∀ (b : Nat) (v : Config), ([Config.zero] : Heap)[b]? = some v → h'[b]? = some v) ∧
      h'[r]? = some Config.zero.WithDefaults :=
  ⟨rfl, WithDefaultsRef_receiver_unchanged [Config.zero] 0 Config.zero rfl⟩

/-- C6: for every configuration, RetentionPolicy and ReadBuffer are returned
unchanged: RetentionPolicy is never assigned, and the guarded assignment of
ReadBuffer writes the zero value over the zero value. -/
theorem WithDefaults_RetentionPolicy_ReadBuffer_unchanged (c : Config) :
    c.WithDefaults.RetentionPolicy = c.RetentionPolicy ∧
    c.WithDefaults.ReadBuffer = c.ReadBuffer ∧
    DefaultReadBuffer = 0 := by
  rw [WithDefaults_eq]
  refine ⟨rfl, ?_, rfl⟩
  by_cases h : c.ReadBuffer = 0 <;> simp [h, DefaultReadBuffer]

/-- C7: the all-zero configuration resolves to exactly Enabled = false,
BindAddress = "", Database = "udp", RetentionPolicy = "", BatchSize = 5000,
BatchPending = 10, ReadBuffer = 0, BatchTimeout = 1000000000 ns,
Precision = "n", UDPPayloadSize = 65536. -/
theorem WithDefaults_zero :
    Config.zero.WithDefaults =
      { Enabled := false, BindAddress := "", Database := "udp", RetentionPolicy := "",
        BatchSize := 5000, BatchPending := 10, ReadBuffer := 0, BatchTimeout := 1000000000,
        Precision := "n", UDPPayloadSize := 65536 } := by
  decide

/-- C8: the configuration whose only non-zero fields are BatchSize = 100 and
Precision = "ms" resolves to BatchSize = 100, Precision = "ms" and the
documented defaults elsewhere; in general every field of the result is decided
by the same field of the input alone, so setting some fields never keeps a
zero field from its default. -/
theorem WithDefaults_partial :
    ({ Config.zero with BatchSize := 100, Precision := "ms" } : Config).WithDefaults =
      { Enabled := false, BindAddress := "", Database := "udp", RetentionPolicy := "",
        BatchSize := 100, BatchPending := 10, ReadBuffer := 0, BatchTimeout := 1000000000,
        Precision := "ms", UDPPayloadSize := 65536 } ∧
    ∀ c : Config, c.WithDefaults =
      { Enabled := c.Enabled
        BindAddress := c.BindAddress
        Database := if c.Database = "" then "udp" else c.Database
        RetentionPolicy := c.RetentionPolicy
        BatchSize := if c.BatchSize = 0 then 5000 else c.BatchSize
        BatchPending := if c.BatchPending = 0 then 10 else c.BatchPending
        ReadBuffer := if c.ReadBuffer = 0 then 0 else c.ReadBuffer
        BatchTimeout := if c.BatchTimeout = 0 then 1000000000 else c.BatchTimeout
        Precision := if c.Precision = "" then "n" else c.Precision
        UDPPayloadSize := if c.UDPPayloadSize = 0 then 65536 else c.UDPPayloadSize } :=
  ⟨by decide, fun c => WithDefaults_eq c⟩

/-- A nil receiver points to no configuration: the dereference that copies the
receiver is a run-time failure, in whatever store the call is made. -/
theorem WithDefaultsRef_nil (h : Heap) :
    Config.WithDefaultsRef h none = Except.error RuntimeError.nilDereference :=
  rfl

/-- C9: the resolver cannot fail: for every configuration given to the call
behind its receiver, whatever it holds, the call raises no failure and returns
a pointer to a configuration, the resolved one; malformed values are accepted
silently, a negative size, a non-empty unrecognised precision and any bind
address coming back as given. -/
theorem WithDefaultsRef_cannot_fail (h : Heap) (a : Nat) (c : Config)
    (hc : h[a]? = some c) :
    (∀ e : RuntimeError, Config.WithDefaultsRef h (some a) ≠ Except.error e) ∧
    ∃ (h' : Heap) (r : Nat),
      Config.WithDefaultsRef h (some a) = Except.ok (h', some r) ∧
      h'[r]? = some c.WithDefaults ∧
      c.WithDefaults.BindAddress = c.BindAddress ∧
      (c.BatchSize < 0 → c.WithDefaults.BatchSize = c.BatchSize) ∧
      (c.BatchPending < 0 → c.WithDefaults.BatchPending = c.BatchPending) ∧
      (c.ReadBuffer < 0 → c.WithDefaults.ReadBuffer = c.ReadBuffer) ∧
      (c.BatchTimeout < 0 → c.WithDefaults.BatchTimeout = c.BatchTimeout) ∧
      (c.UDPPayloadSize < 0 → c.WithDefaults.UDPPayloadSize = c.UDPPayloadSize) ∧
      (c.Precision ≠ "" → c.WithDefaults.Precision = c.Precision) := by
  have hcall : Config.WithDefaultsRef h (some a) =
      Except.ok (h ++ [c.WithDefaults], some h.length) := by
    simp [Config.WithDefaultsRef, hc]
  refine ⟨fun e he => ?_, h ++ [c.WithDefaults], h.length, hcall, by simp, ?_⟩
  · rw [hcall] at he
    cases he
  · rw [WithDefaults_eq]
    refine ⟨rfl, ?_, ?_, ?_, ?_, ?_, ?_⟩
    · intro hn
      have h0 : c.BatchSize ≠ 0 := by omega
      simp [h0]
    · intro hn
      have h0 : c.BatchPending ≠ 0 := by omega
      simp [h0]
    · intro hn
      have h0 : c.ReadBuffer ≠ 0 := by omega
      simp [h0]
    · intro hn
      have h0 : c.BatchTimeout ≠ 0 := ne_of_lt hn
      simp [h0]
    · intro hn
      have h0 : c.UDPPayloadSize ≠ 0 := by omega
      simp [h0]
    · intro hn
      simp [hn]

/-- C9 on a store whose second cell holds a configuration with negative sizes,
an unrecognised precision and a bind address that is no address: the call
returns, and the returned cell holds these values as given, with only the
empty Database defaulted. -/
theorem WithDefaultsRef_cannot_fail_witness :
    ([Config.zero, Config.malformedSample] : Heap)[1]? = some Config.malformedSample ∧
    (∀ e : RuntimeError,
      Config.WithDefaultsRef [Config.zero, Config.malformedSample] (some 1) ≠
        Except.error e) ∧
    ∃ (h' : Heap) (r : Nat),
      Config.WithDefaultsRef [Config.zero, Config.malformedSample] (some 1) =
        Except.ok (h', some r) ∧
      h'[r]? = some
        { Enabled := true, BindAddress := "not an address", Database := "udp",
          RetentionPolicy := "", BatchSize := -1, BatchPending := -7, ReadBuffer := -4096,
          BatchTimeout := -3, Precision := "parsec", UDPPayloadSize := -65536 } := by
  obtain ⟨hne, h', r, hcall, hcell, _⟩ :=
    WithDefaultsRef_cannot_fail [Config.zero, Config.malformedSample] 1
      Config.malformedSample rfl
  refine ⟨rfl, hne, h', r, hcall, ?_⟩
  rw [hcell]
  decide

/-- C10, as stated, fails at the all-zero configuration: ReadBuffer is a
field of the defaulting table and is still zero after the call. -/
theorem WithDefaults_zero_ReadBuffer_still_zero :
    Config.zero.WithDefaults.ReadBuffer = 0 ∧
    ¬ (Config.zero.WithDefaults.Database ≠ "" ∧ Config.zero.WithDefaults.BatchSize ≠ 0 ∧
      Config.zero.WithDefaults.BatchPending ≠ 0 ∧ Config.zero.WithDefaults.BatchTimeout ≠ 0 ∧
      Config.zero.WithDefaults.Precision ≠ "" ∧ Config.zero.WithDefaults.ReadBuffer ≠ 0 ∧
      Config.zero.WithDefaults.UDPPayloadSize ≠ 0) := by
  decide

/-- C10, amended: for every configuration, Database, BatchSize, BatchPending,
BatchTimeout, Precision and UDPPayloadSize differ from their zero values after
the call, and ReadBuffer is zero after the call exactly when it was zero
before. -/
theorem WithDefaults_defaulted_nonzero (c : Config) :
    c.WithDefaults.Database ≠ "" ∧ c.WithDefaults.BatchSize ≠ 0 ∧
    c.WithDefaults.BatchPending ≠ 0 ∧ c.WithDefaults.BatchTimeout ≠ 0 ∧
    c.WithDefaults.Precision ≠ "" ∧ c.WithDefaults.UDPPayloadSize ≠ 0 ∧
    (c.WithDefaults.ReadBuffer = 0 ↔ c.ReadBuffer = 0) := by
  rw [WithDefaults_eq]
  refine ⟨?_, ?_, ?_, ?_, ?_, ?_, ?_⟩
  · by_cases h : c.Database = "" <;> simp [h, DefaultDatabase]
  · by_cases h : c.BatchSize = 0 <;> simp [h, DefaultBatchSize]
  · by_cases h : c.BatchPending = 0 <;> simp [h, DefaultBatchPending]
  · by_cases h : c.BatchTimeout = 0 <;> simp [h, DefaultBatchTimeout, time.Second]
  · by_cases h : c.Precision = "" <;> simp [h, DefaultPrecision]
  · by_cases h : c.UDPPayloadSize = 0 <;> simp [h, DefaultUDPPayloadSize]
  · by_cases h : c.ReadBuffer = 0 <;> simp [h, DefaultReadBuffer]

/-- C11: the fixed points of the resolver are exactly the fully specified
configurations: resolving returns the configuration itself if and only if
Database and Precision are non-empty and BatchSize, BatchPending, BatchTimeout
and UDPPayloadSize are non-zero, whatever ReadBuffer, RetentionPolicy, Enabled
and BindAddress hold. -/
theorem WithDefaults_fixed_point_iff (c : Config) :
    c.WithDefaults = c ↔
      (c.Database ≠ "" ∧ c.Precision ≠ "" ∧ c.BatchSize ≠ 0 ∧ c.BatchPending ≠ 0 ∧
        c.BatchTimeout ≠ 0 ∧ c.UDPPayloadSize ≠ 0) := by
  rw [WithDefaults_eq]
  obtain ⟨en, ba, db, rp, bs, bp, rb, bt, pr, ps⟩ := c
  simp only [Config.mk.injEq, true_and]
  by_cases h1 : db = "" <;> by_cases h2 : bs = 0 <;> by_cases h3 : bp = 0 <;>
    by_cases h4 : bt = 0 <;> by_cases h5 : pr = "" <;> by_cases h6 : rb = 0 <;>
    by_cases h7 : ps = 0 <;>
    simp [h1, h2, h3, h4, h5, h6, h7, DefaultDatabase, DefaultBatchSize, DefaultBatchPending,
      DefaultBatchTimeout, DefaultPrecision, DefaultReadBuffer, DefaultUDPPayloadSize,
      time.Second]

/-- C12: for every configuration whose BatchSize, BatchPending,
UDPPayloadSize and BatchTimeout are non-negative, the resolved configuration
has all four strictly positive; and for every configuration at all, the
resolved Database and Precision are non-empty. -/
theorem WithDefaults_positive_of_nonneg (c : Config) :
    (0 ≤ c.BatchSize → 0 ≤ c.BatchPending → 0 ≤ c.UDPPayloadSize → 0 ≤ c.BatchTimeout →
      0 < c.WithDefaults.BatchSize ∧ 0 < c.WithDefaults.BatchPending ∧
      0 < c.WithDefaults.UDPPayloadSize ∧ 0 < c.WithDefaults.BatchTimeout) ∧
    c.WithDefaults.Database ≠ "" ∧ c.WithDefaults.Precision ≠ "" := by
  rw [WithDefaults_eq]
  refine ⟨fun hs hp hu ht => ⟨?_, ?_, ?_, ?_⟩, ?_, ?_⟩
  · by_cases h : c.BatchSize = 0
    · simp [h, DefaultBatchSize]
    · simp only [h, if_false]; omega
  · by_cases h : c.BatchPending = 0
    · simp [h, DefaultBatchPending]
    · simp only [h, if_false]; omega
  · by_cases h : c.UDPPayloadSize = 0
    · simp [h, DefaultUDPPayloadSize]
    · simp only [h, if_false]; omega
  · by_cases h : c.BatchTimeout = 0
    · simp [h, DefaultBatchTimeout, time.Second]
    · simp only [h, if_false]
      exact lt_of_le_of_ne ht (Ne.symm h)
  · by_cases h : c.Database = "" <;> simp [h, DefaultDatabase]
  · by_cases h : c.Precision = "" <;> simp [h, DefaultPrecision]

/-- C12 at the all-zero configuration, whose four sizes are non-negative: the
resolved sizes 5000, 10, 65536 and 1000000000 are positive and the resolved
Database and Precision are non-empty. -/
theorem WithDefaults_positive_of_nonneg_witness :
    (0 ≤ Config.zero.BatchSize ∧ 0 ≤ Config.zero.BatchPending ∧
      0 ≤ Config.zero.UDPPayloadSize ∧ 0 ≤ Config.zero.BatchTimeout) ∧
    (0 < Config.zero.WithDefaults.BatchSize ∧ 0 < Config.zero.WithDefaults.BatchPending ∧
      0 < Config.zero.WithDefaults.UDPPayloadSize ∧
      0 < Config.zero.WithDefaults.BatchTimeout) ∧
    Config.zero.WithDefaults.Database ≠ "" ∧ Config.zero.WithDefaults.Precision ≠ "" :=
  have h := WithDefaults_positive_of_nonneg Config.zero
  ⟨⟨by decide, by decide, by decide, by decide⟩,
    h.1 (by decide) (by decide) (by decide) (by decide), h.2⟩

/-- C13: each resolved field depends only on the same field of the input: for
every pair of configurations and every field of Config, when the two inputs
agree on the field the two results agree on it, whatever the other fields
hold. -/
theorem WithDefaults_field_depends_on_same_field (c1 c2 : Config) :
    (c1.Enabled = c2.Enabled → c1.WithDefaults.Enabled = c2.WithDefaults.Enabled) ∧
    (c1.BindAddress = c2.BindAddress →
      c1.WithDefaults.BindAddress = c2.WithDefaults.BindAddress) ∧
    (c1.Database = c2.Database → c1.WithDefaults.Database = c2.WithDefaults.Database) ∧
    (c1.RetentionPolicy = c2.RetentionPolicy →
      c1.WithDefaults.RetentionPolicy = c2.WithDefaults.RetentionPolicy) ∧
    (c1.BatchSize = c2.BatchSize → c1.WithDefaults.BatchSize = c2.WithDefaults.BatchSize) ∧
    (c1.BatchPending = c2.BatchPending →
      c1.WithDefaults.BatchPending = c2.WithDefaults.BatchPending) ∧
    (c1.ReadBuffer = c2.ReadBuffer →
      c1.WithDefaults.ReadBuffer = c2.WithDefaults.ReadBuffer) ∧
    (c1.BatchTimeout = c2.BatchTimeout →
      c1.WithDefaults.BatchTimeout = c2.WithDefaults.BatchTimeout) ∧
    (c1.Precision = c2.Precision → c1.WithDefaults.Precision = c2.WithDefaults.Precision) ∧
    (c1.UDPPayloadSize = c2.UDPPayloadSize →
      c1.WithDefaults.UDPPayloadSize = c2.WithDefaults.UDPPayloadSize) := by
  rw [WithDefaults_eq c1, WithDefaults_eq c2]
  refine ⟨?_, ?_, ?_, ?_, ?_, ?_, ?_, ?_, ?_, ?_⟩ <;> intro h <;> simp only [h]

/-- C13 at two pairs of configurations. The first pair agrees on
BatchSize = -5 and Precision = "fortnight" and on no other field, and the two
results agree on BatchSize and Precision. The second pair agrees on every
field but BatchSize and Precision, and the two results agree on those eight
fields. -/
theorem WithDefaults_field_depends_on_same_field_witness :
    ((Config.explicitSample.BatchSize =
        ({ Config.zero with BatchSize := -5, Precision := "fortnight" } : Config).BatchSize ∧
      Config.explicitSample.Precision =
        ({ Config.zero with BatchSize := -5, Precision := "fortnight" } : Config).Precision) ∧
    Config.explicitSample.WithDefaults.BatchSize =
      ({ Config.zero with BatchSize := -5,
                          Precision := "fortnight" } : Config).WithDefaults.BatchSize ∧
    Config.explicitSample.WithDefaults.Precision =
      ({ Config.zero with BatchSize := -5,
                          Precision := "fortnight" } : Config).WithDefaults.Precision) ∧
    (Config.zero.WithDefaults.Enabled =
      ({ Config.zero with BatchSize := 100, Precision := "ms" } : Config).WithDefaults.Enabled ∧
    Config.zero.WithDefaults.BindAddress =
      ({ Config.zero with BatchSize := 100,
                          Precision := "ms" } : Config).WithDefaults.BindAddress ∧
    Config.zero.WithDefaults.Database =
      ({ Config.zero with BatchSize := 100, Precision := "ms" } : Config).WithDefaults.Database ∧
    Config.zero.WithDefaults.RetentionPolicy =
      ({ Config.zero with BatchSize := 100,
                          Precision := "ms" } : Config).WithDefaults.RetentionPolicy ∧
    Config.zero.WithDefaults.BatchPending =
      ({ Config.zero with BatchSize := 100,
                          Precision := "ms" } : Config).WithDefaults.BatchPending ∧
    Config.zero.WithDefaults.ReadBuffer =
      ({ Config.zero with BatchSize := 100,
                          Precision := "ms" } : Config).WithDefaults.ReadBuffer ∧
    Config.zero.WithDefaults.BatchTimeout =
      ({ Config.zero with BatchSize := 100,
                          Precision := "ms" } : Config).WithDefaults.BatchTimeout ∧
    Config.zero.WithDefaults.UDPPayloadSize =
      ({ Config.zero with BatchSize := 100,
                          Precision := "ms" } : Config).WithDefaults.UDPPayloadSize) :=
  have h := WithDefaults_field_depends_on_same_field Config.explicitSample
    { Config.zero with BatchSize := -5, Precision := "fortnight" }
  have k := WithDefaults_field_depends_on_same_field Config.zero
    { Config.zero with BatchSize := 100, Precision := "ms" }
  ⟨⟨⟨rfl, rfl⟩, h.2.2.2.2.1 rfl, h.2.2.2.2.2.2.2.2.1 rfl⟩,
    k.1 rfl, k.2.1 rfl, k.2.2.1 rfl, k.2.2.2.1 rfl, k.2.2.2.2.2.1 rfl, k.2.2.2.2.2.2.1 rfl,
    k.2.2.2.2.2.2.2.1 rfl, k.2.2.2.2.2.2.2.2.2 rfl⟩

/-- C14: writing a default explicitly is the same as leaving the field unset:
for every configuration and every field of the defaulting table that holds its
zero value, replacing the field by its documented default gives a
configuration that resolves to the same result. -/
theorem WithDefaults_explicit_default_eq_unset (c : Config) :
    (c.Database = "" → ({ c with Database := "udp" } : Config).WithDefaults = c.WithDefaults) ∧
    (c.BatchSize = 0 → ({ c with BatchSize := 5000 } : Config).WithDefaults = c.WithDefaults) ∧
    (c.BatchPending = 0 →
      ({ c with BatchPending := 10 } : Config).WithDefaults = c.WithDefaults) ∧
    (c.BatchTimeout = 0 →
      ({ c with BatchTimeout := 1000000000 } : Config).WithDefaults = c.WithDefaults) ∧
    (c.Precision = "" → ({ c with Precision := "n" } : Config).WithDefaults = c.WithDefaults) ∧
    (c.ReadBuffer = 0 → ({ c with ReadBuffer := 0 } : Config).WithDefaults = c.WithDefaults) ∧
    (c.UDPPayloadSize = 0 →
      ({ c with UDPPayloadSize := 65536 } : Config).WithDefaults = c.WithDefaults) := by
  refine ⟨?_, ?_, ?_, ?_, ?_, ?_, ?_⟩ <;> intro h <;>
    rw [WithDefaults_eq c, WithDefaults_eq] <;>
    simp [h, DefaultDatabase, DefaultBatchSize, DefaultBatchPending, DefaultBatchTimeout,
      DefaultPrecision, DefaultReadBuffer, DefaultUDPPayloadSize, time.Second]

/-- C14 at the all-zero configuration: writing any one of the seven defaults
into it resolves to the same configuration as leaving it all-zero. -/
theorem WithDefaults_explicit_default_eq_unset_witness :
    (Config.zero.Database = "" ∧ Config.zero.BatchSize = 0 ∧ Config.zero.BatchPending = 0 ∧
      Config.zero.BatchTimeout = 0 ∧ Config.zero.Precision = "" ∧ Config.zero.ReadBuffer = 0 ∧
      Config.zero.UDPPayloadSize = 0) ∧
    ({ Config.zero with Database := "udp" } : Config).WithDefaults = Config.zero.WithDefaults ∧
    ({ Config.zero with BatchSize := 5000 } : Config).WithDefaults = Config.zero.WithDefaults ∧
    ({ Config.zero with BatchPending := 10 } : Config).WithDefaults =
      Config.zero.WithDefaults ∧
    ({ Config.zero with BatchTimeout := 1000000000 } : Config).WithDefaults =
      Config.zero.WithDefaults ∧
    ({ Config.zero with Precision := "n" } : Config).WithDefaults = Config.zero.WithDefaults ∧
    ({ Config.zero with ReadBuffer := 0 } : Config).WithDefaults = Config.zero.WithDefaults ∧
    ({ Config.zero with UDPPayloadSize := 65536 } : Config).WithDefaults =
      Config.zero.WithDefaults :=
  have h := WithDefaults_explicit_default_eq_unset Config.zero
  ⟨⟨rfl, rfl, rfl, rfl, rfl, rfl, rfl⟩,
    h.1 rfl, h.2.1 rfl, h.2.2.1 rfl, h.2.2.2.1 rfl, h.2.2.2.2.1 rfl, h.2.2.2.2.2.1 rfl,
    h.2.2.2.2.2.2 rfl⟩

end udp
